import Mathlib

/-!
# Verification of the surgency combat-statistics core

Shallow embedding of the scoring and statistics core of the `surgency`
Discord bot:

* `cogs/combat.py` — `CombatCog.calculate_win_chance`, the pure
  win-probability function (modelled over `ℚ`; the Python code uses the same
  exact arithmetic on decimal literals).
* `utils/database.py` — the statistics store (`get_user_stats`,
  `get_weapon_stats`, `record_fight`, `get_top_weapons`), modelled as pure
  state-passing functions over an association-list store mirroring the two
  SQL tables `users` and `user_weapons`.
-/

namespace Surgency

/-- A row of the `users` table: `wins`, `losses`, `total_fights`
(`user_id` is the key, kept outside the record). -/
structure UserRec where
  wins : ℕ
  losses : ℕ
  total_fights : ℕ
deriving DecidableEq, Repr

/-- A row of the `user_weapons` table: `uses`, `wins`
(the key `(user_id, weapon_name)` is kept outside the record). -/
structure WeaponRec where
  uses : ℕ
  wins : ℕ
deriving DecidableEq, Repr

/-! ## Outcome engine: `calculate_win_chance` (cogs/combat.py, lines 37–84)

The Python function computes over floats; every intermediate value is a
small decimal combination of the inputs, modelled here exactly over `ℚ`.
The helper definitions below name the local variables of the source. -/

/-- `attacker_wr` / `defender_wr` of the source:
`stats['wins'] / stats['total_fights'] if stats['total_fights'] > 0 else 0.3`. -/
def win_rate (u : UserRec) : ℚ :=
  if u.total_fights > 0 then (u.wins : ℚ) / (u.total_fights : ℚ) else 0.30

/-- `attacker_confidence` / `defender_confidence` of the source:
`min(1.0, stats['total_fights'] / 20.0)`. -/
def confidence (u : UserRec) : ℚ :=
  min 1 ((u.total_fights : ℚ) / 20)

/-- `user_modifier` of the source:
`wr_diff * 0.25 * avg_confidence` clamped to `[-0.20, 0.20]` by
`max(-0.20, min(0.20, user_modifier))`. -/
def user_modifier (attacker_stats defender_stats : UserRec) : ℚ :=
  let wr_diff := win_rate attacker_stats - win_rate defender_stats
  let avg_confidence := (confidence attacker_stats + confidence defender_stats) / 2
  max (-0.20) (min 0.20 (wr_diff * 0.25 * avg_confidence))

/-- `weapon_modifier` of the source: `0.0` when `uses = 0`, otherwise
`(weapon_wr - attacker_wr) * 0.20 * min(1.0, uses / 10.0)` clamped to
`[-0.15, 0.15]` by `max(-0.15, min(0.15, weapon_modifier))`. -/
def weapon_modifier (attacker_stats : UserRec) (weapon_stats : WeaponRec) : ℚ :=
  if weapon_stats.uses > 0 then
    let weapon_wr := (weapon_stats.wins : ℚ) / (weapon_stats.uses : ℚ)
    let relative_weapon_wr := weapon_wr - win_rate attacker_stats
    let weapon_confidence := min 1 ((weapon_stats.uses : ℚ) / 10)
    max (-0.15) (min 0.15 (relative_weapon_wr * 0.20 * weapon_confidence))
  else 0

/-- `win_chance` of the source just before the final clamp:
`base_chance + user_modifier + weapon_modifier` with `base_chance = 0.50`. -/
def win_chance_preclamp (attacker_stats defender_stats : UserRec)
    (weapon_stats : WeaponRec) : ℚ :=
  0.50 + user_modifier attacker_stats defender_stats
    + weapon_modifier attacker_stats weapon_stats

/-- `CombatCog.calculate_win_chance` (cogs/combat.py): the pre-clamp sum
followed by the final clamp `max(0.10, min(0.90, win_chance))`. -/
def calculate_win_chance (attacker_stats defender_stats : UserRec)
    (weapon_stats : WeaponRec) : ℚ :=
  max 0.10 (min 0.90 (win_chance_preclamp attacker_stats defender_stats weapon_stats))

/-! ### The six-step reference algorithm of spec §4.2, written from the
spec's own words, to be compared with `calculate_win_chance`. -/

/-- Modelled from the spec §4.2: the six-step reference algorithm for
`compute_win_probability`, written directly from the spec's wording. -/
def compute_win_probability_spec (attacker_stats defender_stats : UserRec)
    (weapon_stats : WeaponRec) : ℚ :=
  -- Step 1: base probability
  let base : ℚ := 0.50
  -- Step 2: per-participant win rate, default 0.30 when no fights
  let attacker_wr : ℚ :=
    if attacker_stats.total_fights > 0 then
      (attacker_stats.wins : ℚ) / (attacker_stats.total_fights : ℚ) else 0.30
  let defender_wr : ℚ :=
    if defender_stats.total_fights > 0 then
      (defender_stats.wins : ℚ) / (defender_stats.total_fights : ℚ) else 0.30
  -- Step 3: confidence scaling, averaged
  let avg_confidence : ℚ :=
    (min 1 ((attacker_stats.total_fights : ℚ) / 20)
      + min 1 ((defender_stats.total_fights : ℚ) / 20)) / 2
  -- Step 4: user modifier, clamped to [-0.20, 0.20]
  let um : ℚ := max (-0.20) (min 0.20 ((attacker_wr - defender_wr) * 0.25 * avg_confidence))
  -- Step 5: weapon modifier, clamped to [-0.15, 0.15] when uses > 0, else 0
  let wm : ℚ :=
    if weapon_stats.uses > 0 then
      max (-0.15) (min 0.15
        (((weapon_stats.wins : ℚ) / (weapon_stats.uses : ℚ) - attacker_wr) * 0.20
          * min 1 ((weapon_stats.uses : ℚ) / 10)))
    else 0
  -- Step 6: final clamp to [0.10, 0.90]
  max 0.10 (min 0.90 (base + um + wm))

/-! ## Statistics store (utils/database.py)

The two SQL tables are modelled as association lists; `alookup` is the
`SELECT ... WHERE key = $1` of a primary-key lookup (first matching row) and
`aupdate` is `UPDATE ... WHERE key = $1` (every matching row updated). -/

abbrev UserId := ℤ
abbrev WeaponName := String

/-- `SELECT ... WHERE key = k`: first row whose key is `k`. -/
def alookup {α β : Type} [DecidableEq α] (k : α) : List (α × β) → Option β
  | [] => none
  | p :: t => if p.1 = k then some p.2 else alookup k t

/-- `UPDATE ... SET ... WHERE key = k`: apply `f` to every row keyed `k`. -/
def aupdate {α β : Type} [DecidableEq α] (k : α) (f : β → β)
    (l : List (α × β)) : List (α × β) :=
  l.map (fun p => if p.1 = k then (p.1, f p.2) else p)

/-- The durable state: the `users` table and the `user_weapons` table. -/
structure Store where
  users : List (UserId × UserRec)
  user_weapons : List ((UserId × WeaponName) × WeaponRec)
deriving DecidableEq, Repr

/-- The state after `CREATE TABLE IF NOT EXISTS` on a fresh database. -/
def emptyStore : Store := ⟨[], []⟩

/-- `get_user_stats` (utils/database.py, lines 47–55): `SELECT` the row;
if missing, `INSERT` a default row and report zero counters. Returns the
reported stats together with the updated store. -/
def get_user_stats (s : Store) (user_id : UserId) : UserRec × Store :=
  match alookup user_id s.users with
  | some stats => (stats, s)
  | none => (⟨0, 0, 0⟩, { s with users := (user_id, ⟨0, 0, 0⟩) :: s.users })

/-- `get_weapon_stats` (utils/database.py, lines 57–74): first ensures the
user row exists (via `get_user_stats`), then `SELECT`s the weapon row,
`INSERT`ing a default row when missing. -/
def get_weapon_stats (s : Store) (user_id : UserId) (weapon_name : WeaponName) :
    WeaponRec × Store :=
  let s1 := (get_user_stats s user_id).2
  match alookup (user_id, weapon_name) s1.user_weapons with
  | some stats => (stats, s1)
  | none =>
      (⟨0, 0⟩,
       { s1 with user_weapons := ((user_id, weapon_name), ⟨0, 0⟩) :: s1.user_weapons })

/-- The ensure phase of `record_fight` (utils/database.py, lines 80–84):
ensure the attacker's row, the defender's row and the attacker's weapon row
exist. These calls go through `pool` (fresh connections), not through the
`conn` holding the transaction, so their inserts auto-commit outside it. -/
def ensure_phase (s : Store) (attacker_id defender_id : UserId)
    (weapon_name : WeaponName) : Store :=
  let s1 := (get_user_stats s attacker_id).2
  let s2 := (get_user_stats s1 defender_id).2
  (get_weapon_stats s2 attacker_id weapon_name).2

/-- Attacker-won update of a `users` row:
`SET wins = wins + 1, total_fights = total_fights + 1`. -/
def userWinUpd (r : UserRec) : UserRec :=
  { r with wins := r.wins + 1, total_fights := r.total_fights + 1 }

/-- Losing update of a `users` row:
`SET losses = losses + 1, total_fights = total_fights + 1`. -/
def userLossUpd (r : UserRec) : UserRec :=
  { r with losses := r.losses + 1, total_fights := r.total_fights + 1 }

/-- Winning update of a `user_weapons` row: `SET uses = uses + 1, wins = wins + 1`. -/
def weaponWinUpd (r : WeaponRec) : WeaponRec :=
  { r with uses := r.uses + 1, wins := r.wins + 1 }

/-- Losing update of a `user_weapons` row: `SET uses = uses + 1`. -/
def weaponUseUpd (r : WeaponRec) : WeaponRec :=
  { r with uses := r.uses + 1 }

/-- The three `UPDATE` statements of `record_fight` (utils/database.py,
lines 86–117), all executed on `conn` inside the transaction: attacker row,
attacker's weapon row, then defender row. -/
def update_phase (s : Store) (attacker_id defender_id : UserId)
    (weapon_name : WeaponName) (attacker_won : Bool) : Store :=
  if attacker_won then
    let s1 := { s with users := aupdate attacker_id userWinUpd s.users }
    let s2 := { s1 with
      user_weapons := aupdate (attacker_id, weapon_name) weaponWinUpd s1.user_weapons }
    { s2 with users := aupdate defender_id userLossUpd s2.users }
  else
    let s1 := { s with users := aupdate attacker_id userLossUpd s.users }
    let s2 := { s1 with
      user_weapons := aupdate (attacker_id, weapon_name) weaponUseUpd s1.user_weapons }
    { s2 with users := aupdate defender_id userWinUpd s2.users }

/-- `record_fight` (utils/database.py, lines 76–117): ensure the three rows
exist, then apply the three updates. -/
def record_fight (s : Store) (attacker_id defender_id : UserId)
    (weapon_name : WeaponName) (attacker_won : Bool) : Store :=
  update_phase (ensure_phase s attacker_id defender_id weapon_name)
    attacker_id defender_id weapon_name attacker_won

/-- The store committed after the first `k` ensure steps of `record_fight`
(attacker row, defender row, weapon row — the weapon step re-ensuring the
attacker's user row is a no-op by then). -/
def ensures_upto (s : Store) (attacker_id defender_id : UserId)
    (weapon_name : WeaponName) : ℕ → Store
  | 0 => s
  | 1 => (get_user_stats s attacker_id).2
  | 2 => (get_user_stats (get_user_stats s attacker_id).2 defender_id).2
  | _ + 3 => ensure_phase s attacker_id defender_id weapon_name

/-- The caller-visible store when `record_fight` stops after `k` of its six
primitive steps (three ensures, three updates). The ensures run on separate
pooled connections and auto-commit; the updates run inside the transaction
on `conn` and roll back unless all six steps complete. -/
def record_fight_upto (s : Store) (attacker_id defender_id : UserId)
    (weapon_name : WeaponName) (attacker_won : Bool) (k : ℕ) : Store :=
  if 6 ≤ k then record_fight s attacker_id defender_id weapon_name attacker_won
  else ensures_upto s attacker_id defender_id weapon_name (min k 3)

/-- The comparison of `ORDER BY uses DESC, wins DESC`: `x` may come before
`y` when `x` has strictly more uses, or equal uses and at least as many
wins. -/
def weapon_order (x y : WeaponName × WeaponRec) : Bool :=
  decide (y.2.uses < x.2.uses) ||
    (decide (x.2.uses = y.2.uses) && decide (y.2.wins ≤ x.2.wins))

/-- `get_top_weapons` (utils/database.py, lines 120–134):
`SELECT weapon_name, uses, wins FROM user_weapons WHERE user_id = $1
ORDER BY uses DESC, wins DESC LIMIT $2`. -/
def get_top_weapons (s : Store) (user_id : UserId) (limit : ℕ) :
    List (WeaponName × WeaponRec) :=
  let rows := s.user_weapons.filterMap
    (fun p => if p.1.1 = user_id then some (p.1.2, p.2) else none)
  let sorted := rows.mergeSort weapon_order
  sorted.take limit

/-- Stores reachable through the core's operations, starting from a fresh
database: lazy creation via `get_user_stats` / `get_weapon_stats` and any
sequence of `record_fight` calls. -/
inductive Reachable : Store → Prop
  | empty : Reachable emptyStore
  | getUser {s} (uid : UserId) : Reachable s → Reachable (get_user_stats s uid).2
  | getWeapon {s} (uid : UserId) (w : WeaponName) :
      Reachable s → Reachable (get_weapon_stats s uid w).2
  | fight {s} (a d : UserId) (w : WeaponName) (won : Bool) :
      Reachable s → Reachable (record_fight s a d w won)

/-! ## Concurrent first-touch model for the lazy creators

`get_user_stats` is `SELECT` then, when the row is missing, a plain
`INSERT` with no `ON CONFLICT` clause and no exception handler; the schema
declares `user_id` as `PRIMARY KEY` (and `(user_id, weapon_name)` for
`user_weapons`), so a duplicate insert makes the driver raise a unique-key
violation that propagates to the caller.  A run of two concurrent calls is
modelled by interleaving each call's SELECT step and INSERT step. -/

/-- An error raised by the database driver to the caller. -/
inductive DBError
  | uniqueViolation
deriving DecidableEq, Repr

/-- The INSERT half of `get_user_stats` as run by a caller whose earlier
SELECT saw the row missing (`sawMissing = true`): if the row meanwhile
exists, the PRIMARY KEY conflict is raised (nothing is caught in the code
and the store is unchanged); otherwise the default row is inserted. -/
def insert_user_step (sawMissing : Bool) (s : Store) (uid : UserId) :
    Store × Option DBError :=
  if sawMissing then
    match alookup uid s.users with
    | some _ => (s, some DBError.uniqueViolation)
    | none => ({ s with users := (uid, ⟨0, 0, 0⟩) :: s.users }, none)
  else (s, none)

/-- Two concurrent `get_user_stats uid` calls in the interleaving where both
SELECTs run before either INSERT: final store, first caller's error, second
caller's error. -/
def race_get_user_stats (s : Store) (uid : UserId) :
    Store × Option DBError × Option DBError :=
  let sawMissing1 := (alookup uid s.users).isNone
  let sawMissing2 := (alookup uid s.users).isNone
  let r1 := insert_user_step sawMissing1 s uid
  let r2 := insert_user_step sawMissing2 r1.1 uid
  (r2.1, r1.2, r2.2)

/-- The INSERT half of `get_weapon_stats` as run by a caller whose earlier
SELECT saw the weapon row missing: a duplicate insert violates the primary
key `(user_id, weapon_name)` and the violation is raised uncaught. -/
def insert_weapon_step (sawMissing : Bool) (s : Store) (uid : UserId)
    (w : WeaponName) : Store × Option DBError :=
  if sawMissing then
    match alookup (uid, w) s.user_weapons with
    | some _ => (s, some DBError.uniqueViolation)
    | none =>
        ({ s with user_weapons := ((uid, w), ⟨0, 0⟩) :: s.user_weapons }, none)
  else (s, none)

/-- Two concurrent `get_weapon_stats uid w` calls (with the owning user row
already present, so the inner `get_user_stats` is a pure read) in the
interleaving where both SELECTs run before either INSERT. -/
def race_get_weapon_stats (s : Store) (uid : UserId) (w : WeaponName) :
    Store × Option DBError × Option DBError :=
  let sawMissing1 := (alookup (uid, w) s.user_weapons).isNone
  let sawMissing2 := (alookup (uid, w) s.user_weapons).isNone
  let r1 := insert_weapon_step sawMissing1 s uid w
  let r2 := insert_weapon_step sawMissing2 r1.1 uid w
  (r2.1, r1.2, r2.2)

/-! ## Association-list lemmas -/

theorem alookup_aupdate_self {α β : Type} [DecidableEq α] (k : α) (f : β → β)
    (l : List (α × β)) : alookup k (aupdate k f l) = (alookup k l).map f := by
  induction l with
  | nil => rfl
  | cons p t ih =>
      simp only [aupdate] at ih ⊢
      by_cases h : p.1 = k
      · simp [alookup, h]
      · simp [alookup, h, ih]

theorem alookup_aupdate_ne {α β : Type} [DecidableEq α] {k k' : α} (f : β → β)
    (l : List (α × β)) (h : k' ≠ k) :
    alookup k' (aupdate k f l) = alookup k' l := by
  induction l with
  | nil => rfl
  | cons p t ih =>
      simp only [aupdate] at ih ⊢
      by_cases hp : p.1 = k
      · simp [alookup, hp, Ne.symm h, ih]
      · simp [alookup, hp, ih]

theorem alookup_cons_self {α β : Type} [DecidableEq α] (k : α) (b : β)
    (l : List (α × β)) : alookup k ((k, b) :: l) = some b := by
  simp [alookup]

theorem alookup_cons_ne {α β : Type} [DecidableEq α] {k k' : α} (b : β)
    (l : List (α × β)) (h : k ≠ k') :
    alookup k' ((k, b) :: l) = alookup k' l := by
  simp [alookup, h]

/-! ## Bounds on the modifiers -/

theorem user_modifier_mem (a d : UserRec) :
    -0.20 ≤ user_modifier a d ∧ user_modifier a d ≤ 0.20 := by
  unfold user_modifier
  exact ⟨le_max_left _ _, max_le (by norm_num) (min_le_left _ _)⟩

theorem weapon_modifier_mem (a : UserRec) (w : WeaponRec) :
    -0.15 ≤ weapon_modifier a w ∧ weapon_modifier a w ≤ 0.15 := by
  unfold weapon_modifier
  split
  · exact ⟨le_max_left _ _, max_le (by norm_num) (min_le_left _ _)⟩
  · norm_num

/-! ## Claim theorems: outcome engine -/

/-- C1: `calculate_win_chance` equals the six-step reference algorithm of
spec §4.2 on every input (base 0.50; win rates with 0.30 default; averaged
confidences `min(1, total_fights/20)`; user modifier
`(attacker_wr - defender_wr) * 0.25 * avg_confidence` clamped to
[-0.20, 0.20]; weapon modifier clamped to [-0.15, 0.15] when `uses > 0`,
else 0; sum clamped to [0.10, 0.90]); and on attacker {20, 0, 20} versus
defender {0, 20, 20} with an unused weapon it returns 0.70. -/
theorem calculate_win_chance_eq_spec :
    (∀ (a d : UserRec) (w : WeaponRec),
      calculate_win_chance a d w = compute_win_probability_spec a d w) ∧
    calculate_win_chance ⟨20, 0, 20⟩ ⟨0, 20, 20⟩ ⟨0, 0⟩ = 0.70 := by
  constructor
  · intro a d w
    rfl
  · have hwr : win_rate ⟨20, 0, 20⟩ = 1 := by norm_num [win_rate]
    have hwr2 : win_rate ⟨0, 20, 20⟩ = 0 := by norm_num [win_rate]
    have hc : confidence ⟨20, 0, 20⟩ = 1 := by norm_num [confidence]
    have hc2 : confidence ⟨0, 20, 20⟩ = 1 := by norm_num [confidence]
    have hum : user_modifier ⟨20, 0, 20⟩ ⟨0, 20, 20⟩ = 0.20 := by
      rw [user_modifier, hwr, hwr2, hc, hc2]
      norm_num
    have hwm : weapon_modifier ⟨20, 0, 20⟩ ⟨0, 0⟩ = 0 := by
      norm_num [weapon_modifier]
    rw [calculate_win_chance, win_chance_preclamp, hum, hwm]
    norm_num

/-- C2: for every combination of attacker stats, defender stats and weapon
stats (zero-fight and zero-use records included), `calculate_win_chance`
lies in the closed interval [0.10, 0.90]. -/
theorem calculate_win_chance_bounds (a d : UserRec) (w : WeaponRec) :
    0.10 ≤ calculate_win_chance a d w ∧ calculate_win_chance a d w ≤ 0.90 :=
  ⟨le_max_left _ _, max_le (by norm_num) (min_le_left _ _)⟩

/-- C9: the pre-clamp value of `calculate_win_chance` already lies in
[0.15, 0.85] (the user modifier is clamped to [-0.20, 0.20] and the weapon
modifier to [-0.15, 0.15] around the 0.50 base), so the final clamp to
[0.10, 0.90] never alters the result and the extremes 0.10 and 0.90 are
unreachable. -/
theorem win_chance_clamp_redundant (a d : UserRec) (w : WeaponRec) :
    0.15 ≤ win_chance_preclamp a d w ∧ win_chance_preclamp a d w ≤ 0.85 ∧
    calculate_win_chance a d w = win_chance_preclamp a d w ∧
    calculate_win_chance a d w ≠ 0.10 ∧ calculate_win_chance a d w ≠ 0.90 := by
  obtain ⟨hu1, hu2⟩ := user_modifier_mem a d
  obtain ⟨hw1, hw2⟩ := weapon_modifier_mem a w
  have h1 : (0.15 : ℚ) ≤ win_chance_preclamp a d w := by
    unfold win_chance_preclamp
    have : (0.15 : ℚ) = 0.50 + (-0.20) + (-0.15) := by norm_num
    rw [this]
    gcongr
  have h2 : win_chance_preclamp a d w ≤ 0.85 := by
    unfold win_chance_preclamp
    have : (0.85 : ℚ) = 0.50 + 0.20 + 0.15 := by norm_num
    rw [this]
    gcongr
  have heq : calculate_win_chance a d w = win_chance_preclamp a d w := by
    unfold calculate_win_chance
    rw [min_eq_right (by linarith), max_eq_right (by linarith)]
  refine ⟨h1, h2, heq, ?_, ?_⟩
  · rw [heq]
    intro h
    rw [h] at h1
    norm_num at h1
  · rw [heq]
    intro h
    rw [h] at h2
    norm_num at h2

/-! ## Store lemmas: effect of the lazy creators on lookups -/

theorem gus_users_self (s : Store) (uid : UserId) :
    alookup uid (get_user_stats s uid).2.users =
      some ((alookup uid s.users).getD ⟨0, 0, 0⟩) := by
  unfold get_user_stats
  cases h : alookup uid s.users <;> simp [h, alookup_cons_self]

theorem gus_users_ne (s : Store) {uid uid' : UserId} (h : uid' ≠ uid) :
    alookup uid' (get_user_stats s uid).2.users = alookup uid' s.users := by
  unfold get_user_stats
  cases hh : alookup uid s.users <;> simp [hh, alookup_cons_ne _ _ (Ne.symm h)]

theorem gus_weapons (s : Store) (uid : UserId) :
    (get_user_stats s uid).2.user_weapons = s.user_weapons := by
  unfold get_user_stats
  cases hh : alookup uid s.users <;> simp [hh]

theorem gws_users (s : Store) (uid : UserId) (w : WeaponName) :
    (get_weapon_stats s uid w).2.users = (get_user_stats s uid).2.users := by
  unfold get_weapon_stats
  cases hh : alookup (uid, w) (get_user_stats s uid).2.user_weapons <;> simp [hh]

theorem gws_weapons_self (s : Store) (uid : UserId) (w : WeaponName) :
    alookup (uid, w) (get_weapon_stats s uid w).2.user_weapons =
      some ((alookup (uid, w) s.user_weapons).getD ⟨0, 0⟩) := by
  simp only [get_weapon_stats, gus_weapons]
  cases hh : alookup (uid, w) s.user_weapons <;>
    simp [hh, alookup_cons_self, gus_weapons]

theorem gws_weapons_ne (s : Store) (uid : UserId) (w : WeaponName)
    {k : UserId × WeaponName} (h : k ≠ (uid, w)) :
    alookup k (get_weapon_stats s uid w).2.user_weapons =
      alookup k s.user_weapons := by
  simp only [get_weapon_stats, gus_weapons]
  cases hh : alookup (uid, w) s.user_weapons <;>
    simp [hh, alookup_cons_ne _ _ (Ne.symm h), gus_weapons]

/-! ## Store lemmas: the ensure phase of `record_fight` -/

theorem ensure_phase_users_a (s : Store) (a d : UserId) (w : WeaponName)
    (h : a ≠ d) :
    alookup a (ensure_phase s a d w).users =
      some ((alookup a s.users).getD ⟨0, 0, 0⟩) := by
  unfold ensure_phase
  rw [gws_users, gus_users_self, gus_users_ne _ h, gus_users_self]
  simp

theorem ensure_phase_users_d (s : Store) (a d : UserId) (w : WeaponName)
    (h : a ≠ d) :
    alookup d (ensure_phase s a d w).users =
      some ((alookup d s.users).getD ⟨0, 0, 0⟩) := by
  unfold ensure_phase
  rw [gws_users, gus_users_ne _ (Ne.symm h), gus_users_self,
    gus_users_ne _ (Ne.symm h)]

theorem ensure_phase_users_other (s : Store) (a d : UserId) (w : WeaponName)
    {uid : UserId} (h1 : uid ≠ a) (h2 : uid ≠ d) :
    alookup uid (ensure_phase s a d w).users = alookup uid s.users := by
  unfold ensure_phase
  rw [gws_users, gus_users_ne _ h1, gus_users_ne _ h2, gus_users_ne _ h1]

theorem ensure_phase_weapons_self (s : Store) (a d : UserId) (w : WeaponName) :
    alookup (a, w) (ensure_phase s a d w).user_weapons =
      some ((alookup (a, w) s.user_weapons).getD ⟨0, 0⟩) := by
  unfold ensure_phase
  rw [gws_weapons_self, gus_weapons, gus_weapons]

theorem ensure_phase_weapons_other (s : Store) (a d : UserId) (w : WeaponName)
    {k : UserId × WeaponName} (h : k ≠ (a, w)) :
    alookup k (ensure_phase s a d w).user_weapons =
      alookup k s.user_weapons := by
  unfold ensure_phase
  rw [gws_weapons_ne _ _ _ h, gus_weapons, gus_weapons]

/-! ## Store lemmas: the update phase of `record_fight` -/

theorem update_phase_users_a (s : Store) (a d : UserId) (w : WeaponName)
    (won : Bool) (hne : a ≠ d) :
    alookup a (update_phase s a d w won).users =
      (alookup a s.users).map (if won then userWinUpd else userLossUpd) := by
  cases won <;>
    simp [update_phase, alookup_aupdate_ne _ _ hne, alookup_aupdate_self]

theorem update_phase_users_d (s : Store) (a d : UserId) (w : WeaponName)
    (won : Bool) (hne : a ≠ d) :
    alookup d (update_phase s a d w won).users =
      (alookup d s.users).map (if won then userLossUpd else userWinUpd) := by
  cases won <;>
    simp [update_phase, alookup_aupdate_ne _ _ (Ne.symm hne), alookup_aupdate_self]

theorem update_phase_users_other (s : Store) (a d : UserId) (w : WeaponName)
    (won : Bool) {uid : UserId} (h1 : uid ≠ a) (h2 : uid ≠ d) :
    alookup uid (update_phase s a d w won).users = alookup uid s.users := by
  cases won <;>
    simp [update_phase, alookup_aupdate_ne _ _ h1, alookup_aupdate_ne _ _ h2]

theorem update_phase_weapons_self (s : Store) (a d : UserId) (w : WeaponName)
    (won : Bool) :
    alookup (a, w) (update_phase s a d w won).user_weapons =
      (alookup (a, w) s.user_weapons).map
        (if won then weaponWinUpd else weaponUseUpd) := by
  cases won <;> simp [update_phase, alookup_aupdate_self]

theorem update_phase_weapons_other (s : Store) (a d : UserId) (w : WeaponName)
    (won : Bool) {k : UserId × WeaponName} (h : k ≠ (a, w)) :
    alookup k (update_phase s a d w won).user_weapons =
      alookup k s.user_weapons := by
  cases won <;> simp [update_phase, alookup_aupdate_ne _ _ h]

/-! ## Claim theorems: `record_fight` transitions and frame -/

/-- C3: `record_fight` applies exactly one of two transitions. When the
attacker won: attacker `wins` and `total_fights` up by one, attacker's
weapon `uses` and `wins` up by one, defender `losses` and `total_fights` up
by one. When the attacker lost: attacker `losses` and `total_fights` up by
one, weapon `uses` up by one with weapon `wins` unchanged, defender `wins`
and `total_fights` up by one. Rows missing before the call count as
zero-counter records (they are lazily created first). -/
theorem record_fight_transitions (s : Store) (a d : UserId) (w : WeaponName)
    (won : Bool) (hne : a ≠ d) :
    alookup a (record_fight s a d w won).users =
      some ((if won then userWinUpd else userLossUpd)
        ((alookup a s.users).getD ⟨0, 0, 0⟩)) ∧
    alookup d (record_fight s a d w won).users =
      some ((if won then userLossUpd else userWinUpd)
        ((alookup d s.users).getD ⟨0, 0, 0⟩)) ∧
    alookup (a, w) (record_fight s a d w won).user_weapons =
      some ((if won then weaponWinUpd else weaponUseUpd)
        ((alookup (a, w) s.user_weapons).getD ⟨0, 0⟩)) := by
  unfold record_fight
  refine ⟨?_, ?_, ?_⟩
  · rw [update_phase_users_a _ _ _ _ _ hne, ensure_phase_users_a _ _ _ _ hne]
    rfl
  · rw [update_phase_users_d _ _ _ _ _ hne, ensure_phase_users_d _ _ _ _ hne]
    rfl
  · rw [update_phase_weapons_self, ensure_phase_weapons_self]
    rfl

/-- Witness for C3: one recorded fight on a fresh store. -/
theorem record_fight_transitions_witness :
    (1 : UserId) ≠ 2 ∧
    (alookup (1 : UserId) (record_fight emptyStore 1 2 "ak" true).users =
        some (userWinUpd ⟨0, 0, 0⟩) ∧
      alookup (2 : UserId) (record_fight emptyStore 1 2 "ak" true).users =
        some (userLossUpd ⟨0, 0, 0⟩) ∧
      alookup ((1 : UserId), ("ak" : WeaponName))
          (record_fight emptyStore 1 2 "ak" true).user_weapons =
        some (weaponWinUpd ⟨0, 0⟩)) :=
  ⟨by decide, record_fight_transitions emptyStore 1 2 "ak" true (by decide)⟩

/-- C10: `record_fight` only touches the attacker's user row, the defender's
user row and the attacker's row for the given weapon name: every other user
row, and every weapon row other than the attacker's row for that weapon (in
particular every weapon record of the defender), is unchanged. -/
theorem record_fight_frame (s : Store) (a d : UserId) (w : WeaponName)
    (won : Bool) :
    (∀ uid : UserId, uid ≠ a → uid ≠ d →
      alookup uid (record_fight s a d w won).users = alookup uid s.users) ∧
    (∀ k : UserId × WeaponName, k ≠ (a, w) →
      alookup k (record_fight s a d w won).user_weapons =
        alookup k s.user_weapons) := by
  constructor
  · intro uid h1 h2
    unfold record_fight
    rw [update_phase_users_other _ _ _ _ _ h1 h2,
      ensure_phase_users_other _ _ _ _ h1 h2]
  · intro k h
    unfold record_fight
    rw [update_phase_weapons_other _ _ _ _ _ h,
      ensure_phase_weapons_other _ _ _ _ h]

/-- Witness for C10: a third user and the defender's weapon row are
untouched by a recorded fight. -/
theorem record_fight_frame_witness :
    ((3 : UserId) ≠ 1 ∧ (3 : UserId) ≠ 2 ∧
      alookup (3 : UserId) (record_fight emptyStore 1 2 "ak" true).users =
        alookup (3 : UserId) emptyStore.users) ∧
    (((2 : UserId), ("ak" : WeaponName)) ≠ ((1 : UserId), "ak") ∧
      alookup ((2 : UserId), ("ak" : WeaponName))
          (record_fight emptyStore 1 2 "ak" true).user_weapons =
        alookup ((2 : UserId), ("ak" : WeaponName)) emptyStore.user_weapons) :=
  ⟨⟨by decide, by decide,
      (record_fight_frame emptyStore 1 2 "ak" true).1 3 (by decide) (by decide)⟩,
    ⟨by decide,
      (record_fight_frame emptyStore 1 2 "ak" true).2 (2, "ak") (by decide)⟩⟩

/-! ## Invariant preservation -/

theorem aupdate_pres {α β : Type} [DecidableEq α] {Q : α × β → Prop} (k : α)
    (f : β → β) (hf : ∀ q : α × β, Q q → Q (q.1, f q.2)) (l : List (α × β))
    (h : ∀ p ∈ l, Q p) : ∀ p ∈ aupdate k f l, Q p := by
  intro p hp
  unfold aupdate at hp
  obtain ⟨q, hq, hpe⟩ := List.mem_map.mp hp
  by_cases hk : q.1 = k
  · rw [← hpe, if_pos hk]
    exact hf _ (h q hq)
  · rw [← hpe, if_neg hk]
    exact h q hq

theorem gus_users_eq (s : Store) (uid : UserId) :
    (get_user_stats s uid).2.users = s.users ∨
    (get_user_stats s uid).2.users = (uid, ⟨0, 0, 0⟩) :: s.users := by
  unfold get_user_stats
  cases hh : alookup uid s.users <;> simp [hh]

theorem gws_weapons_eq (s : Store) (uid : UserId) (w : WeaponName) :
    (get_weapon_stats s uid w).2.user_weapons = s.user_weapons ∨
    (get_weapon_stats s uid w).2.user_weapons =
      ((uid, w), ⟨0, 0⟩) :: s.user_weapons := by
  simp only [get_weapon_stats, gus_weapons]
  cases hh : alookup (uid, w) s.user_weapons <;> simp [hh, gus_weapons]

theorem update_phase_users_eq (s : Store) (a d : UserId) (w : WeaponName)
    (won : Bool) :
    (update_phase s a d w won).users =
      aupdate d (if won then userLossUpd else userWinUpd)
        (aupdate a (if won then userWinUpd else userLossUpd) s.users) := by
  cases won <;> simp [update_phase]

theorem update_phase_weapons_eq (s : Store) (a d : UserId) (w : WeaponName)
    (won : Bool) :
    (update_phase s a d w won).user_weapons =
      aupdate (a, w) (if won then weaponWinUpd else weaponUseUpd)
        s.user_weapons := by
  cases won <;> simp [update_phase]

theorem userInv_gus (s : Store) (uid : UserId)
    (h : ∀ p ∈ s.users, p.2.total_fights = p.2.wins + p.2.losses) :
    ∀ p ∈ (get_user_stats s uid).2.users,
      p.2.total_fights = p.2.wins + p.2.losses := by
  rcases gus_users_eq s uid with he | he <;> rw [he]
  · exact h
  · intro p hp
    rcases List.mem_cons.mp hp with rfl | hp'
    · rfl
    · exact h p hp'

theorem userInv_gws (s : Store) (uid : UserId) (w : WeaponName)
    (h : ∀ p ∈ s.users, p.2.total_fights = p.2.wins + p.2.losses) :
    ∀ p ∈ (get_weapon_stats s uid w).2.users,
      p.2.total_fights = p.2.wins + p.2.losses := by
  rw [gws_users]
  exact userInv_gus _ _ h

theorem userInv_ensure (s : Store) (a d : UserId) (w : WeaponName)
    (h : ∀ p ∈ s.users, p.2.total_fights = p.2.wins + p.2.losses) :
    ∀ p ∈ (ensure_phase s a d w).users,
      p.2.total_fights = p.2.wins + p.2.losses := by
  unfold ensure_phase
  exact userInv_gws _ _ _ (userInv_gus _ _ (userInv_gus _ _ h))

theorem userInv_fight (s : Store) (a d : UserId) (w : WeaponName) (won : Bool)
    (h : ∀ p ∈ s.users, p.2.total_fights = p.2.wins + p.2.losses) :
    ∀ p ∈ (record_fight s a d w won).users,
      p.2.total_fights = p.2.wins + p.2.losses := by
  unfold record_fight
  rw [update_phase_users_eq]
  apply aupdate_pres
  · cases won <;> intro q hq <;> simp [userWinUpd, userLossUpd] <;> omega
  · apply aupdate_pres
    · cases won <;> intro q hq <;> simp [userWinUpd, userLossUpd] <;> omega
    · exact userInv_ensure _ _ _ _ h

theorem weaponInv_gus (s : Store) (uid : UserId)
    (h : ∀ p ∈ s.user_weapons, p.2.wins ≤ p.2.uses) :
    ∀ p ∈ (get_user_stats s uid).2.user_weapons, p.2.wins ≤ p.2.uses := by
  rw [gus_weapons]
  exact h

theorem weaponInv_gws (s : Store) (uid : UserId) (w : WeaponName)
    (h : ∀ p ∈ s.user_weapons, p.2.wins ≤ p.2.uses) :
    ∀ p ∈ (get_weapon_stats s uid w).2.user_weapons, p.2.wins ≤ p.2.uses := by
  rcases gws_weapons_eq s uid w with he | he <;> rw [he]
  · exact h
  · intro p hp
    rcases List.mem_cons.mp hp with rfl | hp'
    · exact Nat.le_refl _
    · exact h p hp'

theorem weaponInv_ensure (s : Store) (a d : UserId) (w : WeaponName)
    (h : ∀ p ∈ s.user_weapons, p.2.wins ≤ p.2.uses) :
    ∀ p ∈ (ensure_phase s a d w).user_weapons, p.2.wins ≤ p.2.uses := by
  unfold ensure_phase
  exact weaponInv_gws _ _ _ (weaponInv_gus _ _ (weaponInv_gus _ _ h))

theorem weaponInv_fight (s : Store) (a d : UserId) (w : WeaponName) (won : Bool)
    (h : ∀ p ∈ s.user_weapons, p.2.wins ≤ p.2.uses) :
    ∀ p ∈ (record_fight s a d w won).user_weapons, p.2.wins ≤ p.2.uses := by
  unfold record_fight
  rw [update_phase_weapons_eq]
  apply aupdate_pres
  · cases won <;> intro q hq <;> simp [weaponWinUpd, weaponUseUpd] <;> omega
  · exact weaponInv_ensure _ _ _ _ h

/-! ## Claim theorems: invariants of reachable stores -/

/-- C4: every user record of a store reachable through the core's
operations (lazy creation via `get_user_stats` / `get_weapon_stats` and any
sequence of `record_fight` calls, from a fresh database) satisfies
`total_fights = wins + losses`. -/
theorem userRecord_invariant (s : Store) (h : Reachable s) :
    ∀ p ∈ s.users, p.2.total_fights = p.2.wins + p.2.losses := by
  induction h with
  | empty => intro p hp; simp [emptyStore] at hp
  | getUser uid _ ih => exact userInv_gus _ _ ih
  | getWeapon uid w _ ih => exact userInv_gws _ _ _ ih
  | fight a d w won _ ih => exact userInv_fight _ _ _ _ _ ih

/-- Witness for C4: the attacker's row after one fight on a fresh store. -/
theorem userRecord_invariant_witness :
    Reachable (record_fight emptyStore 1 2 "ak" true) ∧
    ((1 : UserId), UserRec.mk 1 0 1) ∈
      (record_fight emptyStore 1 2 "ak" true).users ∧
    (UserRec.mk 1 0 1).total_fights =
      (UserRec.mk 1 0 1).wins + (UserRec.mk 1 0 1).losses :=
  ⟨Reachable.fight 1 2 "ak" true Reachable.empty, by decide,
    userRecord_invariant _ (Reachable.fight 1 2 "ak" true Reachable.empty)
      ((1 : UserId), UserRec.mk 1 0 1) (by decide)⟩

/-- C5: every weapon record of a store reachable through the core's
operations satisfies `wins ≤ uses`. -/
theorem weaponRecord_invariant (s : Store) (h : Reachable s) :
    ∀ p ∈ s.user_weapons, p.2.wins ≤ p.2.uses := by
  induction h with
  | empty => intro p hp; simp [emptyStore] at hp
  | getUser uid _ ih => exact weaponInv_gus _ _ ih
  | getWeapon uid w _ ih => exact weaponInv_gws _ _ _ ih
  | fight a d w won _ ih => exact weaponInv_fight _ _ _ _ _ ih

/-- Witness for C5: the attacker's weapon row after one fight on a fresh
store. -/
theorem weaponRecord_invariant_witness :
    Reachable (record_fight emptyStore 1 2 "ak" true) ∧
    (((1 : UserId), ("ak" : WeaponName)), WeaponRec.mk 1 1) ∈
      (record_fight emptyStore 1 2 "ak" true).user_weapons ∧
    (WeaponRec.mk 1 1).wins ≤ (WeaponRec.mk 1 1).uses :=
  ⟨Reachable.fight 1 2 "ak" true Reachable.empty, by decide,
    weaponRecord_invariant _ (Reachable.fight 1 2 "ak" true Reachable.empty)
      (((1 : UserId), ("ak" : WeaponName)), WeaponRec.mk 1 1) (by decide)⟩

/-! ## Claim theorems: atomicity of `record_fight`

`record_fight` opens a transaction on one connection `conn`, but its three
ensure steps call `get_user_stats` / `get_weapon_stats` with `pool`, so their
inserts run on other pooled connections and auto-commit outside the
transaction. A failure before completion therefore rolls back the three
counter updates but keeps any lazily created rows. -/

/-- C6 counterexample: on a fresh store, a failure right after the ensure
steps (three of six steps done) leaves a store that is neither the original
store (the attacker, defender and weapon rows were created and committed
outside the transaction) nor the fully updated one. -/
theorem record_fight_interrupted_not_atomic :
    record_fight_upto emptyStore 1 2 "ak" true 3 ≠ emptyStore ∧
    record_fight_upto emptyStore 1 2 "ak" true 3 ≠
      record_fight emptyStore 1 2 "ak" true := by
  exact ⟨by decide, by decide⟩

/-- View of a user's counters as the caller sees them through
`get_user_stats` after one lazy-creation step: unchanged. -/
theorem gus_view_users (s : Store) (uid uid' : UserId) :
    (alookup uid' (get_user_stats s uid).2.users).getD ⟨0, 0, 0⟩ =
      (alookup uid' s.users).getD ⟨0, 0, 0⟩ := by
  by_cases h : uid' = uid
  · subst h
    rw [gus_users_self, Option.getD_some]
  · rw [gus_users_ne _ h]

theorem gws_view_users (s : Store) (uid : UserId) (w : WeaponName)
    (uid' : UserId) :
    (alookup uid' (get_weapon_stats s uid w).2.users).getD ⟨0, 0, 0⟩ =
      (alookup uid' s.users).getD ⟨0, 0, 0⟩ := by
  rw [gws_users]
  exact gus_view_users _ _ _

theorem gws_view_weapons (s : Store) (uid : UserId) (w : WeaponName)
    (key : UserId × WeaponName) :
    (alookup key (get_weapon_stats s uid w).2.user_weapons).getD ⟨0, 0⟩ =
      (alookup key s.user_weapons).getD ⟨0, 0⟩ := by
  by_cases h : key = (uid, w)
  · subst h
    rw [gws_weapons_self, Option.getD_some]
  · rw [gws_weapons_ne _ _ _ h]

theorem ensures_view_users (s : Store) (a d : UserId) (w : WeaponName)
    (k : ℕ) (uid : UserId) :
    (alookup uid (ensures_upto s a d w k).users).getD ⟨0, 0, 0⟩ =
      (alookup uid s.users).getD ⟨0, 0, 0⟩ := by
  match k with
  | 0 => rfl
  | 1 => exact gus_view_users _ _ _
  | 2 =>
      show (alookup uid (get_user_stats _ d).2.users).getD _ = _
      rw [gus_view_users, gus_view_users]
  | n + 3 =>
      show (alookup uid (ensure_phase s a d w).users).getD _ = _
      unfold ensure_phase
      rw [gws_view_users, gus_view_users, gus_view_users]

theorem ensures_view_weapons (s : Store) (a d : UserId) (w : WeaponName)
    (k : ℕ) (key : UserId × WeaponName) :
    (alookup key (ensures_upto s a d w k).user_weapons).getD ⟨0, 0⟩ =
      (alookup key s.user_weapons).getD ⟨0, 0⟩ := by
  match k with
  | 0 => rfl
  | 1 => rw [show (ensures_upto s a d w 1) = (get_user_stats s a).2 from rfl,
      gus_weapons]
  | 2 =>
      show (alookup key (get_user_stats _ d).2.user_weapons).getD _ = _
      rw [gus_weapons, gus_weapons]
  | n + 3 =>
      show (alookup key (ensure_phase s a d w).user_weapons).getD _ = _
      unfold ensure_phase
      rw [gws_view_weapons, gus_weapons, gus_weapons]

/-- C6 amended: a failure before all six steps complete rolls back the three
counter updates, so every counter the caller can observe (absent rows read
as zero) is unchanged; however, rows lazily created by the ensure steps may
remain, because those inserts auto-commit on separate pooled connections
outside the transaction. -/
theorem record_fight_interrupted_counters_unchanged (s : Store)
    (a d : UserId) (w : WeaponName) (won : Bool) (k : ℕ) (hk : k < 6) :
    (∀ uid : UserId,
      (alookup uid (record_fight_upto s a d w won k).users).getD ⟨0, 0, 0⟩ =
        (alookup uid s.users).getD ⟨0, 0, 0⟩) ∧
    (∀ key : UserId × WeaponName,
      (alookup key (record_fight_upto s a d w won k).user_weapons).getD
          ⟨0, 0⟩ =
        (alookup key s.user_weapons).getD ⟨0, 0⟩) := by
  unfold record_fight_upto
  rw [if_neg (by omega)]
  exact ⟨ensures_view_users _ _ _ _ _, ensures_view_weapons _ _ _ _ _⟩

/-- Witness for the amended C6: a failure after four steps on a populated
store leaves the attacker's visible counters unchanged. -/
theorem record_fight_interrupted_counters_unchanged_witness :
    4 < 6 ∧
    (alookup (1 : UserId)
        (record_fight_upto
          (Store.mk [(1, ⟨2, 1, 3⟩)] [((1, "ak"), ⟨2, 1⟩)])
          1 2 "ak" true 4).users).getD ⟨0, 0, 0⟩ =
      (alookup (1 : UserId)
        (Store.mk [(1, ⟨2, 1, 3⟩)] [((1, "ak"), ⟨2, 1⟩)]).users).getD
        ⟨0, 0, 0⟩ :=
  ⟨by decide,
    (record_fight_interrupted_counters_unchanged
      (Store.mk [(1, ⟨2, 1, 3⟩)] [((1, "ak"), ⟨2, 1⟩)])
      1 2 "ak" true 4 (by decide)).1 1⟩

/-! ## Claim theorems: concurrent lazy creation -/

theorem countP_eq_zero_of_alookup_none {α β : Type} [DecidableEq α] {k : α}
    {l : List (α × β)} (h : alookup k l = none) :
    l.countP (fun p => decide (p.1 = k)) = 0 := by
  induction l with
  | nil => rfl
  | cons p t ih =>
      unfold alookup at h
      by_cases hp : p.1 = k
      · rw [if_pos hp] at h
        cases h
      · rw [if_neg hp] at h
        rw [List.countP_cons_of_neg _ _ (by simpa using hp)]
        exact ih h

/-- C7 counterexample: on a fresh store, two concurrent `get_user_stats`
calls for a never-seen id, in the interleaving where both SELECTs run before
either INSERT, leave exactly one zero-counter row — but the second INSERT's
unique-key conflict is raised to the caller as an error (the code has no
`ON CONFLICT` clause and no handler), not treated as "already exists". -/
theorem race_get_user_stats_raises :
    (race_get_user_stats emptyStore 1).2.2 = some DBError.uniqueViolation ∧
    (race_get_user_stats emptyStore 1).1.users = [(1, ⟨0, 0, 0⟩)] := by
  exact ⟨by decide, by decide⟩

/-- C7 amended: for a never-seen user id, two concurrent `get_user_stats`
calls that both SELECT before either INSERT store exactly one row with zero
counters; the first call succeeds, but the second call's unique-key conflict
is raised to the caller (the store is left with the single row).  Likewise
for `get_weapon_stats` on a never-seen `(user_id, weapon_name)` pair when
the owning user row already exists. -/
theorem race_lazy_creation_amended :
    (∀ (s : Store) (uid : UserId), alookup uid s.users = none →
      (race_get_user_stats s uid).1.users.countP
          (fun p => decide (p.1 = uid)) = 1 ∧
      alookup uid (race_get_user_stats s uid).1.users = some ⟨0, 0, 0⟩ ∧
      (race_get_user_stats s uid).2.1 = none ∧
      (race_get_user_stats s uid).2.2 = some DBError.uniqueViolation) ∧
    (∀ (s : Store) (uid : UserId) (w : WeaponName),
      alookup (uid, w) s.user_weapons = none →
      (race_get_weapon_stats s uid w).1.user_weapons.countP
          (fun p => decide (p.1 = (uid, w))) = 1 ∧
      alookup (uid, w) (race_get_weapon_stats s uid w).1.user_weapons =
        some ⟨0, 0⟩ ∧
      (race_get_weapon_stats s uid w).2.1 = none ∧
      (race_get_weapon_stats s uid w).2.2 = some DBError.uniqueViolation) := by
  constructor
  · intro s uid h
    refine ⟨?_, ?_, ?_, ?_⟩ <;>
      simp [race_get_user_stats, insert_user_step, h, alookup_cons_self,
        List.countP_cons, countP_eq_zero_of_alookup_none h]
  · intro s uid w h
    refine ⟨?_, ?_, ?_, ?_⟩ <;>
      simp [race_get_weapon_stats, insert_weapon_step, h, alookup_cons_self,
        List.countP_cons, countP_eq_zero_of_alookup_none h]

/-- Witness for the amended C7: the race on a fresh store for user 1 and for
weapon "ak" of user 1. -/
theorem race_lazy_creation_amended_witness :
    (alookup (1 : UserId) emptyStore.users = none ∧
      (race_get_user_stats emptyStore 1).1.users.countP
          (fun p => decide (p.1 = (1 : UserId))) = 1 ∧
      alookup (1 : UserId) (race_get_user_stats emptyStore 1).1.users =
        some ⟨0, 0, 0⟩ ∧
      (race_get_user_stats emptyStore 1).2.1 = none ∧
      (race_get_user_stats emptyStore 1).2.2 =
        some DBError.uniqueViolation) ∧
    (alookup ((1 : UserId), ("ak" : WeaponName)) emptyStore.user_weapons =
        none ∧
      (race_get_weapon_stats emptyStore 1 "ak").1.user_weapons.countP
          (fun p => decide (p.1 = ((1 : UserId), ("ak" : WeaponName)))) = 1 ∧
      alookup ((1 : UserId), ("ak" : WeaponName))
          (race_get_weapon_stats emptyStore 1 "ak").1.user_weapons =
        some ⟨0, 0⟩ ∧
      (race_get_weapon_stats emptyStore 1 "ak").2.1 = none ∧
      (race_get_weapon_stats emptyStore 1 "ak").2.2 =
        some DBError.uniqueViolation) :=
  ⟨⟨rfl, race_lazy_creation_amended.1 emptyStore 1 rfl⟩,
    ⟨rfl, race_lazy_creation_amended.2 emptyStore 1 "ak" rfl⟩⟩

/-! ## Claim theorems: `get_top_weapons` -/

theorem weapon_order_trans (a b c : WeaponName × WeaponRec) :
    weapon_order a b → weapon_order b c → weapon_order a c := by
  simp only [weapon_order, Bool.or_eq_true, Bool.and_eq_true, decide_eq_true_eq]
  omega

theorem weapon_order_total (a b : WeaponName × WeaponRec) :
    weapon_order a b || weapon_order b a := by
  simp only [weapon_order, Bool.or_eq_true, Bool.and_eq_true, decide_eq_true_eq]
  omega

/-- C8: `get_top_weapons` returns at most `limit` records, pairwise ordered
by `uses` descending with ties broken by `wins` descending, and returns the
empty sequence when the user has no weapon records. -/
theorem get_top_weapons_spec (s : Store) (uid : UserId) (limit : ℕ) :
    (get_top_weapons s uid limit).length ≤ limit ∧
    (get_top_weapons s uid limit).Pairwise (fun x y =>
      y.2.uses ≤ x.2.uses ∧ (x.2.uses = y.2.uses → y.2.wins ≤ x.2.wins)) ∧
    ((∀ p ∈ s.user_weapons, p.1.1 ≠ uid) → get_top_weapons s uid limit = []) := by
  refine ⟨?_, ?_, ?_⟩
  · simp only [get_top_weapons]
    rw [List.length_take]
    exact min_le_left _ _
  · have hs := List.sorted_mergeSort weapon_order_trans weapon_order_total
      (s.user_weapons.filterMap
        (fun p => if p.1.1 = uid then some (p.1.2, p.2) else none))
    have hp := hs.imp (S := fun x y =>
        y.2.uses ≤ x.2.uses ∧ (x.2.uses = y.2.uses → y.2.wins ≤ x.2.wins))
      (fun hxy => by
        simp only [weapon_order, Bool.or_eq_true, Bool.and_eq_true,
          decide_eq_true_eq] at hxy
        omega)
    simp only [get_top_weapons]
    exact hp.sublist (List.take_sublist _ _)
  · intro h
    have hrows : s.user_weapons.filterMap
        (fun p => if p.1.1 = uid then some (p.1.2, p.2) else none) = [] := by
      rw [List.filterMap_eq_nil_iff]
      intro p hp
      rw [if_neg (h p hp)]
    simp [get_top_weapons, hrows, List.mergeSort_nil]

/-- Witness for C8: a user with no weapon history on a fresh store. -/
theorem get_top_weapons_spec_witness :
    (get_top_weapons emptyStore 7 5).length ≤ 5 ∧
    get_top_weapons emptyStore 7 5 = [] :=
  ⟨(get_top_weapons_spec emptyStore 7 5).1,
    (get_top_weapons_spec emptyStore 7 5).2.2 (by decide)⟩

end Surgency
